import Mathlib

/-!
# Verification of the FLARE signal-processing core

Shallow embedding of the algorithmic core of the FLARE backend
(`flare_backend/api/utils.py` and the heat-map grid endpoint of
`flare_backend/api/views.py`), together with proofs of the specified
properties.

Python numbers are modelled as follows: integer RSSI readings are `ℤ`;
float arithmetic that only ever adds, subtracts, multiplies, divides and
rounds (signal classification, navigation guidance, cell classification,
trilateration) is modelled exactly over `ℚ`; the distance estimator,
which computes a real power `10 ** ratio`, is modelled over `ℝ`, with
`math.pow` overflow modelled by the exact real threshold `2^1024` (the
first value beyond the range of an IEEE-754 double).  Python exceptions
are modelled with `Except`: a value `.error e` means the exception `e`
escapes the function to its caller.
-/

/-- Python exceptions that can arise in the numeric helpers. -/
inductive PyError where
  | zeroDivisionError
  | overflowError
  | valueError
deriving DecidableEq, Repr

/-! ## Signal classifier: `get_signal_quality` (utils.py, lines 100-118) -/

/-- Embedding of `get_signal_quality(rssi)`: threshold ladder returning
`(quality_level, description)`. -/
def get_signal_quality (rssi : ℤ) : String × String :=
  if rssi ≥ -50 then ("excellent", "Excellent - Very close")
  else if rssi ≥ -60 then ("good", "Good - Within 5m")
  else if rssi ≥ -70 then ("fair", "Fair - Within 10m")
  else if rssi ≥ -80 then ("weak", "Weak - Within 20m")
  else if rssi ≥ -90 then ("very_weak", "Very Weak - Far away")
  else ("minimal", "Minimal - At range limit")

/-- Reference ladder, written from the spec's threshold table
(each band inclusive on its lower bound, evaluated top-down). -/
def classify_quality_spec (rssi : ℤ) : String :=
  if rssi ≥ -50 then "excellent"
  else if rssi ≥ -60 then "good"
  else if rssi ≥ -70 then "fair"
  else if rssi ≥ -80 then "weak"
  else if rssi ≥ -90 then "very_weak"
  else "minimal"

/-! ## Navigation advisor: `get_navigation_guidance` (utils.py, lines 121-164) -/

/-- The guidance dictionary.  `rssi_change` is `none` when the Python dict
does not contain the key at all. -/
structure Guidance where
  direction : String
  message : String
  confidence : ℚ
  rssi_change : Option ℤ
deriving DecidableEq, Repr

/-- Embedding of `get_navigation_guidance(current_rssi, previous_rssi, threshold=3)`. -/
def get_navigation_guidance (current_rssi : ℤ) (previous_rssi : Option ℤ)
    (threshold : ℤ := 3) : Guidance :=
  match previous_rssi with
  | none =>
      { direction := "unknown"
        message := "Start moving to calibrate direction"
        confidence := 0
        rssi_change := none }
  | some prev =>
      let change := current_rssi - prev
      if |change| < threshold then
        { direction := "stable"
          message := "Signal stable - try moving in a different direction"
          confidence := 3/10
          rssi_change := some change }
      else if change > 0 then
        { direction := "closer"
          message := "Getting closer! Keep going this direction ✓"
          confidence := min 1 ((|change| : ℚ) / 10)
          rssi_change := some change }
      else
        { direction := "farther"
          message := "Moving away - turn around ↺"
          confidence := min 1 ((|change| : ℚ) / 10)
          rssi_change := some change }

/-! ## Cell classifier: `classify_cell_status` (utils.py, lines 167-191) -/

/-- Mean of the readings, as computed by `sum(...) / len(...)`. -/
def cellMean (signal_readings : List ℚ) : ℚ :=
  signal_readings.sum / signal_readings.length

/-- Population variance of the readings, as computed by
`sum((x - avg) ** 2 for x in signal_readings) / len(signal_readings)`. -/
def cellVariance (signal_readings : List ℚ) : ℚ :=
  ((signal_readings.map fun x => (x - cellMean signal_readings) ^ 2).sum)
    / signal_readings.length

/-- Embedding of `classify_cell_status(signal_readings)`. -/
def classify_cell_status (signal_readings : List ℚ) : String :=
  if signal_readings = [] then "unknown"
  else
    let avg_signal := cellMean signal_readings
    let signal_variance := cellVariance signal_readings
    if signal_variance > 100 then "unstable"
    else if avg_signal ≥ -70 then "clear"
    else if avg_signal ≥ -85 then "unstable"
    else "obstacle"

/-! ## Trilateration: `estimate_position_from_beacons` (utils.py, lines 194-228) -/

/-- A beacon record: the `x`, `y`, `distance` keys of the Python dict. -/
structure Beacon where
  x : ℚ
  y : ℚ
  distance : ℚ
deriving DecidableEq, Repr

/-- `round(x, 2)`: round to 2 decimal places. -/
def round2q (x : ℚ) : ℚ := (round (100 * x) : ℤ) / 100

/-- The coefficient `A = 2*(x2 - x1)` of the linearized system (and
`D = 2*(x3 - x2)` when applied to the second and third beacons). -/
def trilatA (p q : Beacon) : ℚ := 2 * (q.x - p.x)

/-- The coefficient `B = 2*(y2 - y1)` (and `E` for the second pair). -/
def trilatB (p q : Beacon) : ℚ := 2 * (q.y - p.y)

/-- The constant `C = d1² - d2² - x1² + x2² - y1² + y2²` (and `F` for
the second pair). -/
def trilatC (p q : Beacon) : ℚ :=
  p.distance ^ 2 - q.distance ^ 2 - p.x ^ 2 + q.x ^ 2 - p.y ^ 2 + q.y ^ 2

/-- The determinant `A*E - B*D` of the linearized system built from the
first three beacons. -/
def trilatDenom (b1 b2 b3 : Beacon) : ℚ :=
  (2 * (b2.x - b1.x)) * (2 * (b3.y - b2.y)) -
    (2 * (b2.y - b1.y)) * (2 * (b3.x - b2.x))

/-- Value-level core of
`estimate_position_from_beacons(beacon_distances)` in exact rational
arithmetic: the result when every squaring stays inside the double
range.  `KeyError` cannot arise with beacons as records, the guard on
the denominator rules out `ZeroDivisionError`, and this arithmetic does
not raise `ValueError`.  The one exception path the source does have —
`float.__pow__` raises `OverflowError` when a `** 2` squaring leaves
the double range, and the `except (KeyError, ZeroDivisionError,
ValueError)` clause does not catch it — is modelled on top of this
core by `estimate_position_from_beacons_py`.  `none` is Python's
`None`. -/
def estimate_position_from_beacons (beacon_distances : List Beacon) :
    Option (ℚ × ℚ) :=
  match beacon_distances with
  | b1 :: b2 :: b3 :: _ =>
      let A := 2 * (b2.x - b1.x)
      let B := 2 * (b2.y - b1.y)
      let C := b1.distance ^ 2 - b2.distance ^ 2 - b1.x ^ 2 + b2.x ^ 2
                 - b1.y ^ 2 + b2.y ^ 2
      let D := 2 * (b3.x - b2.x)
      let E := 2 * (b3.y - b2.y)
      let F := b2.distance ^ 2 - b3.distance ^ 2 - b2.x ^ 2 + b3.x ^ 2
                 - b2.y ^ 2 + b3.y ^ 2
      let denominator := A * E - B * D
      if |denominator| < 1/10000 then none
      else some (round2q ((C * E - B * F) / denominator),
                 round2q ((A * F - C * D) / denominator))
  | _ => none

/-- The overflow threshold of `float.__pow__`, as an exact rational:
the first value beyond the range of a double. -/
def qFloatMax : ℚ := 2 ^ (1024 : ℕ)

/-- Some squaring `** 2` evaluated for `C` or `F` (the coordinates and
distances of the first three beacons) leaves the double range, so
`float.__pow__` raises `OverflowError`. -/
def trilatSqOverflow (b1 b2 b3 : Beacon) : Prop :=
  qFloatMax ≤ b1.distance ^ 2 ∨ qFloatMax ≤ b2.distance ^ 2 ∨
    qFloatMax ≤ b1.x ^ 2 ∨ qFloatMax ≤ b2.x ^ 2 ∨
    qFloatMax ≤ b1.y ^ 2 ∨ qFloatMax ≤ b2.y ^ 2 ∨
    qFloatMax ≤ b3.distance ^ 2 ∨ qFloatMax ≤ b3.x ^ 2 ∨
    qFloatMax ≤ b3.y ^ 2

instance instDecidableTrilatSqOverflow (b1 b2 b3 : Beacon) :
    Decidable (trilatSqOverflow b1 b2 b3) := by
  unfold trilatSqOverflow
  infer_instance

/-- Embedding of `estimate_position_from_beacons(beacon_distances)`
including its exception behavior.  The squarings for `C` and `F` are
evaluated before the denominator guard; if any of them leaves the
double range, the `OverflowError` raised by `** 2` escapes the
`except (KeyError, ZeroDivisionError, ValueError)` clause and reaches
the caller (`Except.error`).  Otherwise the call returns normally with
the value of the exact-arithmetic core. -/
def estimate_position_from_beacons_py (beacon_distances : List Beacon) :
    Except PyError (Option (ℚ × ℚ)) :=
  match beacon_distances with
  | b1 :: b2 :: b3 :: rest =>
      if trilatSqOverflow b1 b2 b3 then Except.error PyError.overflowError
      else Except.ok (estimate_position_from_beacons (b1 :: b2 :: b3 :: rest))
  | _ => Except.ok none

/-! ## Heat-map grid endpoint: `HeatMapDataViewSet.grid` (views.py, lines 439-484) -/

/-- A stored heat-map data point: the fields of a `HeatMapData` row that
the grid endpoint reads (`grid_x`, `grid_y`, `cell_status`,
`signal_strength`; the latter is a non-null `IntegerField`). -/
structure HeatPoint where
  grid_x : ℤ
  grid_y : ℤ
  cell_status : String
  signal_strength : ℤ
deriving DecidableEq, Repr

/-- A cell of the returned grid: the dict `{x, y, status,
signal_strength}`.  `signal_strength` is `none` for the synthesized
default, where the Python dict holds `None`. -/
structure CellOut where
  x : ℤ
  y : ℤ
  status : String
  signal_strength : Option ℤ
deriving DecidableEq, Repr

/-- The dict built for a supplied data point. -/
def HeatPoint.toCell (p : HeatPoint) : CellOut :=
  { x := p.grid_x, y := p.grid_y, status := p.cell_status,
    signal_strength := some p.signal_strength }

/-- The loop `for point in data_points: grid[key] = {...}`: a dict keyed
by `(grid_x, grid_y)`, a later point overwriting an earlier one at the
same key. -/
def gridDict (data_points : List HeatPoint) : ℤ × ℤ → Option CellOut :=
  data_points.foldl
    (fun acc p => fun key =>
      if key = (p.grid_x, p.grid_y) then some p.toCell else acc key)
    (fun _ => none)

/-- `range(lo, hi + 1)` over integers: `[lo, lo+1, ..., hi]`. -/
def intRange (lo hi : ℤ) : List ℤ :=
  (List.range (hi - lo + 1).toNat).map fun (i : ℕ) => (lo + i : ℤ)

/-- The response payload of the grid endpoint. -/
structure GridResult where
  grid : List (List CellOut)
  min_x : ℤ
  max_x : ℤ
  min_y : ℤ
  max_y : ℤ
  cell_count : ℕ
deriving DecidableEq, Repr

/-- Embedding of the grid endpoint body once the session's data points
have been fetched, supplied here as a list in iteration order.  The
empty case is the early `if not data_points.exists()` return. -/
def grid_endpoint (data_points : List HeatPoint) : GridResult :=
  match data_points with
  | [] => { grid := [], min_x := 0, max_x := 0, min_y := 0, max_y := 0,
            cell_count := 0 }
  | p :: ps =>
      let min_x := (ps.map HeatPoint.grid_x).foldl min p.grid_x
      let max_x := (ps.map HeatPoint.grid_x).foldl max p.grid_x
      let min_y := (ps.map HeatPoint.grid_y).foldl min p.grid_y
      let max_y := (ps.map HeatPoint.grid_y).foldl max p.grid_y
      let lookup := gridDict (p :: ps)
      let grid_2d :=
        (intRange min_y max_y).map fun y =>
          (intRange min_x max_x).map fun x =>
            (lookup (x, y)).getD
              { x := x, y := y, status := "unknown", signal_strength := none }
      { grid := grid_2d, min_x := min_x, max_x := max_x,
        min_y := min_y, max_y := max_y, cell_count := (p :: ps).length }

/-- The last-submitted data point for a key, from the spec's
last-write-wins contract: the first match in the reversed submission
order. -/
def lastSubmitted (data_points : List HeatPoint) (key : ℤ × ℤ) :
    Option HeatPoint :=
  data_points.reverse.find? fun p => (p.grid_x, p.grid_y) = key

/-! ## Distance estimator: `calculate_distance_from_rssi` (utils.py, lines 70-97)

Modelled over `ℝ`.  `math.pow(10, ratio)` raises `OverflowError` when
the result exceeds the range of an IEEE-754 double; we model the
overflow threshold by the exact real value `2^1024`.  The `except`
clause of the source catches only `ValueError` and `OverflowError`, so a
`ZeroDivisionError` raised by the ratio computation escapes to the
caller; an escaping exception is an `Except.error` value here. -/

/-- `round(x, 2)`: round to 2 decimal places, over `ℝ`. -/
noncomputable def round2 (x : ℝ) : ℝ := (round (100 * x) : ℤ) / 100

/-- The overflow threshold of `math.pow`: the first real value beyond
the range of a double. -/
noncomputable def floatMax : ℝ := 2 ^ (1024 : ℕ)

/-- Embedding of
`calculate_distance_from_rssi(rssi, tx_power=-59, environment_factor=2.0)`. -/
noncomputable def calculate_distance_from_rssi (rssi : ℝ)
    (tx_power : ℝ := -59) (environment_factor : ℝ := 2) :
    Except PyError ℝ :=
  if rssi ≥ 0 then .ok 0
  else if environment_factor = 0 then .error .zeroDivisionError
  else if floatMax ≤
      (10 : ℝ) ^ ((tx_power - rssi) / (10 * environment_factor)) then
    .ok 999
  else .ok (round2 ((10 : ℝ) ^ ((tx_power - rssi) / (10 * environment_factor))))

/-! ## Theorems -/

/-- C9: `get_signal_quality` implements the spec's threshold ladder with
inclusive lower bounds, evaluated top-down with first match winning (so
exactly one band applies); in particular `classify_quality(-60) = good`,
`classify_quality(-50) = excellent`, `classify_quality(-95) = minimal`. -/
theorem get_signal_quality_matches_ladder :
    (∀ rssi : ℤ, (get_signal_quality rssi).1 = classify_quality_spec rssi) ∧
    (get_signal_quality (-60)).1 = "good" ∧
    (get_signal_quality (-50)).1 = "excellent" ∧
    (get_signal_quality (-95)).1 = "minimal" := by
  refine ⟨fun rssi => ?_, by decide, by decide, by decide⟩
  unfold get_signal_quality classify_quality_spec
  split_ifs <;> rfl

/-- C10: the guidance result carries the `rssi_change` key exactly when
`previous_rssi` is present, and it then equals
`current_rssi - previous_rssi`; in the calibrating branch the key is
absent. -/
theorem get_navigation_guidance_rssi_change_field (cur p thr : ℤ) :
    (get_navigation_guidance cur none thr).rssi_change = none ∧
    (get_navigation_guidance cur (some p) thr).rssi_change
      = some (cur - p) := by
  refine ⟨rfl, ?_⟩
  simp only [get_navigation_guidance]
  split_ifs <;> rfl

/-- C6: `get_navigation_guidance` matches the reference definition:
absent `previous_rssi` gives `unknown`/`0.0`; otherwise with
`change = current - previous`, `|change| < threshold` gives
`stable`/`0.3`, then `change > 0` gives `closer` and `change < 0` gives
`farther`, both with confidence `min(1, |change|/10)`; and
`guidance(-50, -60)` is `closer` with confidence `1.0`. -/
theorem get_navigation_guidance_matches_reference (cur p thr : ℤ) :
    ((get_navigation_guidance cur none thr).direction = "unknown" ∧
      (get_navigation_guidance cur none thr).confidence = 0) ∧
    (|cur - p| < thr →
      (get_navigation_guidance cur (some p) thr).direction = "stable" ∧
      (get_navigation_guidance cur (some p) thr).confidence = 3/10) ∧
    (thr ≤ |cur - p| → 0 < cur - p →
      (get_navigation_guidance cur (some p) thr).direction = "closer" ∧
      (get_navigation_guidance cur (some p) thr).confidence
        = min 1 ((|cur - p| : ℚ) / 10)) ∧
    (thr ≤ |cur - p| → cur - p < 0 →
      (get_navigation_guidance cur (some p) thr).direction = "farther" ∧
      (get_navigation_guidance cur (some p) thr).confidence
        = min 1 ((|cur - p| : ℚ) / 10)) ∧
    ((get_navigation_guidance (-50) (some (-60)) 3).direction = "closer" ∧
      (get_navigation_guidance (-50) (some (-60)) 3).confidence = 1) := by
  refine ⟨⟨rfl, rfl⟩, ?_, ?_, ?_, by simp [get_navigation_guidance],
    by simp [get_navigation_guidance]⟩
  · intro h
    constructor <;> simp [get_navigation_guidance, h]
  · intro h1 h2
    constructor <;> simp [get_navigation_guidance, not_lt.mpr h1, h2]
  · intro h1 h2
    constructor <;>
      simp [get_navigation_guidance, not_lt.mpr h1, not_lt.mpr h2.le]

/-- Witness for C6 at `current = -50`, `previous = -60`, `threshold = 3`. -/
theorem get_navigation_guidance_matches_reference_witness :
    ((3 : ℤ) ≤ |(-50 : ℤ) - (-60)| ∧ (0 : ℤ) < (-50 : ℤ) - (-60)) ∧
    (get_navigation_guidance (-50) (some (-60)) 3).direction = "closer" ∧
    (get_navigation_guidance (-50) (some (-60)) 3).confidence
      = min 1 ((|(-50 : ℤ) - (-60)| : ℚ) / 10) :=
  ⟨⟨by decide, by decide⟩,
    (get_navigation_guidance_matches_reference (-50) (-60) 3).2.2.1
      (by decide) (by decide)⟩

/-- C4: `classify_cell_status` matches the reference decision procedure:
empty list gives `unknown`; population variance above 100 gives
`unstable` before any mean-based band; otherwise mean at least -70 gives
`clear`, mean at least -85 gives `unstable`, and below that `obstacle`;
in particular `[-60,-60,-60]` is `clear` and `[-60,-90,-60,-90]` is
`unstable`. -/
theorem classify_cell_status_matches_reference (l : List ℚ) :
    (l = [] → classify_cell_status l = "unknown") ∧
    (l ≠ [] → 100 < cellVariance l → classify_cell_status l = "unstable") ∧
    (l ≠ [] → cellVariance l ≤ 100 → -70 ≤ cellMean l →
      classify_cell_status l = "clear") ∧
    (l ≠ [] → cellVariance l ≤ 100 → cellMean l < -70 → -85 ≤ cellMean l →
      classify_cell_status l = "unstable") ∧
    (l ≠ [] → cellVariance l ≤ 100 → cellMean l < -85 →
      classify_cell_status l = "obstacle") ∧
    classify_cell_status [-60, -60, -60] = "clear" ∧
    classify_cell_status [-60, -90, -60, -90] = "unstable" := by
  have ex1 : classify_cell_status [-60, -60, -60] = "clear" := by
    unfold classify_cell_status
    rw [if_neg (by decide : ¬([-60, -60, -60] : List ℚ) = [])]
    norm_num [cellMean, cellVariance]
  have ex2 : classify_cell_status [-60, -90, -60, -90] = "unstable" := by
    unfold classify_cell_status
    rw [if_neg (by decide : ¬([-60, -90, -60, -90] : List ℚ) = [])]
    norm_num [cellMean, cellVariance]
  refine ⟨?_, ?_, ?_, ?_, ?_, ex1, ex2⟩
  · intro h
    simp [classify_cell_status, h]
  · intro hne hv
    simp [classify_cell_status, hne, hv]
  · intro hne hv hm
    simp [classify_cell_status, hne, not_lt.mpr hv, hm]
  · intro hne hv hm1 hm2
    simp [classify_cell_status, hne, not_lt.mpr hv, not_le.mpr hm1, hm2]
  · intro hne hv hm
    have hm1 : cellMean l < -70 := by linarith
    simp [classify_cell_status, hne, not_lt.mpr hv, not_le.mpr hm1,
      not_le.mpr hm]

/-- Witness for C4 at the list `[-60, -60, -60]`. -/
theorem classify_cell_status_matches_reference_witness :
    (([-60, -60, -60] : List ℚ) ≠ [] ∧
      cellVariance [-60, -60, -60] ≤ 100 ∧
      (-70 : ℚ) ≤ cellMean [-60, -60, -60]) ∧
    classify_cell_status [-60, -60, -60] = "clear" :=
  ⟨⟨by decide, by norm_num [cellVariance, cellMean], by norm_num [cellMean]⟩,
    (classify_cell_status_matches_reference [-60, -60, -60]).2.2.1
      (by decide) (by norm_num [cellVariance, cellMean])
      (by norm_num [cellMean])⟩

/-- Degenerate cases of the value-level core: `none` for fewer than 3
beacons, and for 3 or more beacons exactly when the determinant of the
first three has absolute value below `1e-4`; extra beacons are
ignored. -/
theorem estimate_position_degenerate_cases (bs : List Beacon)
    (b1 b2 b3 : Beacon) (rest : List Beacon) :
    (bs.length < 3 → estimate_position_from_beacons bs = none) ∧
    (estimate_position_from_beacons (b1 :: b2 :: b3 :: rest) = none ↔
      |trilatDenom b1 b2 b3| < 1/10000) ∧
    estimate_position_from_beacons (b1 :: b2 :: b3 :: rest)
      = estimate_position_from_beacons [b1, b2, b3] := by
  refine ⟨?_, ?_, rfl⟩
  · intro h
    match bs, h with
    | [], _ => rfl
    | [_], _ => rfl
    | [_, _], _ => rfl
    | _ :: _ :: _ :: _, h => simp at h; omega
  · simp only [estimate_position_from_beacons, trilatDenom]
    split_ifs with h
    · exact iff_of_true rfl h
    · exact iff_of_false (by simp) h

/-- Instantiation of the value-level degenerate cases: two beacons give
`None`; three collinear beacons (on the x-axis) give `None`. -/
theorem estimate_position_degenerate_cases_witness :
    (([(⟨0, 0, 1⟩ : Beacon), ⟨1, 0, 1⟩].length) < 3 ∧
      estimate_position_from_beacons [⟨0, 0, 1⟩, ⟨1, 0, 1⟩] = none) ∧
    (estimate_position_from_beacons
        [(⟨0, 0, 1⟩ : Beacon), ⟨1, 0, 1⟩, ⟨2, 0, 1⟩] = none ↔
      |trilatDenom ⟨0, 0, 1⟩ ⟨1, 0, 1⟩ ⟨2, 0, 1⟩| < 1/10000) :=
  ⟨⟨by decide,
      (estimate_position_degenerate_cases [⟨0, 0, 1⟩, ⟨1, 0, 1⟩]
        ⟨0, 0, 1⟩ ⟨1, 0, 1⟩ ⟨2, 0, 1⟩ []).1 (by decide)⟩,
    (estimate_position_degenerate_cases [] ⟨0, 0, 1⟩ ⟨1, 0, 1⟩ ⟨2, 0, 1⟩
      []).2.1⟩

/-- C8: in the non-degenerate case the returned point is the solution of
the linearized system, each coordinate rounded to 2 decimal places; on
the anchors `(0,0,5), (10,0,5), (5,8.66,5)` this is exactly
`(5.0, 2.89)`. -/
theorem estimate_position_formula (b1 b2 b3 : Beacon) (rest : List Beacon)
    (h : 1/10000 ≤ |trilatDenom b1 b2 b3|) :
    estimate_position_from_beacons (b1 :: b2 :: b3 :: rest) =
      some (round2q ((trilatC b1 b2 * trilatB b2 b3
                - trilatB b1 b2 * trilatC b2 b3) / trilatDenom b1 b2 b3),
            round2q ((trilatA b1 b2 * trilatC b2 b3
                - trilatC b1 b2 * trilatA b2 b3) / trilatDenom b1 b2 b3)) ∧
    estimate_position_from_beacons [⟨0, 0, 5⟩, ⟨10, 0, 5⟩, ⟨5, 8.66, 5⟩]
      = some (5, 2.89) := by
  have gen : ∀ c1 c2 c3 : Beacon, 1/10000 ≤ |trilatDenom c1 c2 c3| →
      estimate_position_from_beacons [c1, c2, c3] =
        some (round2q ((trilatC c1 c2 * trilatB c2 c3
                - trilatB c1 c2 * trilatC c2 c3) / trilatDenom c1 c2 c3),
              round2q ((trilatA c1 c2 * trilatC c2 c3
                - trilatC c1 c2 * trilatA c2 c3) / trilatDenom c1 c2 c3)) := by
    intro c1 c2 c3 hc
    rw [trilatDenom] at hc
    simp only [estimate_position_from_beacons, trilatA, trilatB, trilatC,
      trilatDenom]
    rw [if_neg (not_lt.mpr hc)]
  have habs : |trilatDenom ⟨0, 0, 5⟩ ⟨10, 0, 5⟩ ⟨5, 8.66, 5⟩|
      = 1732/5 := by
    rw [trilatDenom, abs_of_nonneg (by norm_num)]
    norm_num
  constructor
  · rw [trilatDenom] at h
    simp only [estimate_position_from_beacons, trilatA, trilatB, trilatC,
      trilatDenom]
    rw [if_neg (not_lt.mpr h)]
  · rw [gen ⟨0, 0, 5⟩ ⟨10, 0, 5⟩ ⟨5, 8.66, 5⟩ (by rw [habs]; norm_num)]
    norm_num [trilatA, trilatB, trilatC, trilatDenom, round2q, round_eq]

/-- Witness for C8 at the equilateral anchors `(0,0,5), (10,0,5),
(5,8.66,5)`. -/
theorem estimate_position_formula_witness :
    ((1 : ℚ)/10000 ≤ |trilatDenom ⟨0, 0, 5⟩ ⟨10, 0, 5⟩ ⟨5, 8.66, 5⟩|) ∧
    estimate_position_from_beacons [⟨0, 0, 5⟩, ⟨10, 0, 5⟩, ⟨5, 8.66, 5⟩]
      = some (5, 2.89) := by
  have habs : |trilatDenom ⟨0, 0, 5⟩ ⟨10, 0, 5⟩ ⟨5, 8.66, 5⟩|
      = 1732/5 := by
    rw [trilatDenom, abs_of_nonneg (by norm_num)]
    norm_num
  exact ⟨by rw [habs]; norm_num,
    (estimate_position_formula ⟨0, 0, 5⟩ ⟨10, 0, 5⟩ ⟨5, 8.66, 5⟩ []
      (by rw [habs]; norm_num)).2⟩

/-- A left fold of `min` is a lower bound for the seed and every element. -/
theorem foldl_min_le_of_mem :
    ∀ {l : List ℤ} {a b : ℤ}, b ∈ a :: l → l.foldl min a ≤ b := by
  intro l
  induction l with
  | nil =>
      intro a b h
      rw [List.mem_singleton] at h
      simp [h]
  | cons c t ih =>
      intro a b h
      rw [List.foldl_cons]
      have hbase : t.foldl min (min a c) ≤ min a c :=
        ih (List.mem_cons_self _ _)
      rcases List.mem_cons.mp h with h1 | h1
      · rw [h1]
        exact le_trans hbase (min_le_left _ _)
      · rcases List.mem_cons.mp h1 with h2 | h2
        · rw [h2]
          exact le_trans hbase (min_le_right _ _)
        · exact ih (List.mem_cons_of_mem _ h2)

/-- A left fold of `min` is the seed or one of the elements. -/
theorem foldl_min_mem : ∀ (a : ℤ) (l : List ℤ), l.foldl min a ∈ a :: l := by
  intro a l
  induction l generalizing a with
  | nil => simp
  | cons c t ih =>
      rw [List.foldl_cons]
      rcases List.mem_cons.mp (ih (min a c)) with h1 | h1
      · rw [h1]
        rcases min_choice a c with h2 | h2 <;> rw [h2]
        · exact List.mem_cons_self _ _
        · exact List.mem_cons_of_mem _ (List.mem_cons_self _ _)
      · exact List.mem_cons_of_mem _ (List.mem_cons_of_mem _ h1)

/-- A left fold of `max` is an upper bound for the seed and every element. -/
theorem le_foldl_max_of_mem :
    ∀ {l : List ℤ} {a b : ℤ}, b ∈ a :: l → b ≤ l.foldl max a := by
  intro l
  induction l with
  | nil =>
      intro a b h
      rw [List.mem_singleton] at h
      simp [h]
  | cons c t ih =>
      intro a b h
      rw [List.foldl_cons]
      have hbase : max a c ≤ t.foldl max (max a c) :=
        ih (List.mem_cons_self _ _)
      rcases List.mem_cons.mp h with h1 | h1
      · rw [h1]
        exact le_trans (le_max_left _ _) hbase
      · rcases List.mem_cons.mp h1 with h2 | h2
        · rw [h2]
          exact le_trans (le_max_right _ _) hbase
        · exact ih (List.mem_cons_of_mem _ h2)

/-- A left fold of `max` is the seed or one of the elements. -/
theorem foldl_max_mem : ∀ (a : ℤ) (l : List ℤ), l.foldl max a ∈ a :: l := by
  intro a l
  induction l generalizing a with
  | nil => simp
  | cons c t ih =>
      rw [List.foldl_cons]
      rcases List.mem_cons.mp (ih (max a c)) with h1 | h1
      · rw [h1]
        rcases max_choice a c with h2 | h2 <;> rw [h2]
        · exact List.mem_cons_self _ _
        · exact List.mem_cons_of_mem _ (List.mem_cons_self _ _)
      · exact List.mem_cons_of_mem _ (List.mem_cons_of_mem _ h1)

/-- Length of an integer range. -/
theorem intRange_length (lo hi : ℤ) :
    (intRange lo hi).length = (hi - lo + 1).toNat := by
  rw [intRange, List.length_map, List.length_range]

/-- The `i`-th element of an integer range is `lo + i`. -/
theorem intRange_getElem (lo hi : ℤ) (i : ℕ)
    (h : i < (intRange lo hi).length) : (intRange lo hi)[i] = lo + i := by
  simp only [intRange, List.getElem_map, List.getElem_range]

/-- Folding dict updates over a list of points, with an arbitrary
initial dict: the resulting lookup returns the cell of the last point
with the looked-up key, or falls back to the initial dict. -/
theorem gridDict_fold_eq_find (ps : List HeatPoint)
    (f : ℤ × ℤ → Option CellOut) (k : ℤ × ℤ) :
    (ps.foldl (fun acc p => fun key =>
        if key = (p.grid_x, p.grid_y) then some p.toCell else acc key) f) k
      = match ps.reverse.find? (fun p => (p.grid_x, p.grid_y) = k) with
        | some q => some q.toCell
        | none => f k := by
  induction ps generalizing f with
  | nil => rfl
  | cons p t ih =>
      rw [List.foldl_cons, ih, List.reverse_cons, List.find?_append]
      cases t.reverse.find? (fun q => decide ((q.grid_x, q.grid_y) = k)) with
      | some q => rw [Option.or_some]
      | none =>
          rw [Option.none_or]
          by_cases hk : (p.grid_x, p.grid_y) = k
          · rw [List.find?_cons_of_pos _ (by simpa using hk)]
            show (if k = (p.grid_x, p.grid_y) then some p.toCell else f k)
              = some p.toCell
            rw [if_pos hk.symm]
          · rw [List.find?_cons_of_neg _ (by simpa using hk), List.find?_nil]
            show (if k = (p.grid_x, p.grid_y) then some p.toCell else f k)
              = f k
            rw [if_neg fun h => hk h.symm]

/-- The dict lookup equals the last-submitted point at the key. -/
theorem gridDict_eq_lastSubmitted (ps : List HeatPoint) (k : ℤ × ℤ) :
    gridDict ps k = (lastSubmitted ps k).map HeatPoint.toCell := by
  rw [gridDict, lastSubmitted, gridDict_fold_eq_find]
  cases ps.reverse.find? (fun p => decide ((p.grid_x, p.grid_y) = k)) with
  | some q => rfl
  | none => rfl

/-- Indexing the materialized two-dimensional grid: row `i`, column `j`
holds the dict entry (or the synthesized default) at coordinates
`(lo1 + j, lo2 + i)`. -/
theorem grid_cells_getD (pts : List HeatPoint) (lo1 hi1 lo2 hi2 : ℤ)
    (d : CellOut) (i j : ℕ) (hi : i < (hi2 - lo2 + 1).toNat)
    (hj : j < (hi1 - lo1 + 1).toNat) :
    ((((intRange lo2 hi2).map fun y => (intRange lo1 hi1).map fun x =>
        (gridDict pts (x, y)).getD
          { x := x, y := y, status := "unknown",
            signal_strength := none }).getD i []).getD j d)
      = (gridDict pts (lo1 + j, lo2 + i)).getD
          { x := lo1 + j, y := lo2 + i, status := "unknown",
            signal_strength := none } := by
  have h2 : i < (intRange lo2 hi2).length := by
    rw [intRange_length]; exact hi
  have h2m : i < ((intRange lo2 hi2).map fun y =>
      (intRange lo1 hi1).map fun x =>
        (gridDict pts (x, y)).getD
          { x := x, y := y, status := "unknown",
            signal_strength := none }).length := by
    rw [List.length_map]; exact h2
  rw [List.getD_eq_getElem _ _ h2m, List.getElem_map,
    intRange_getElem lo2 hi2 i h2]
  have h1 : j < (intRange lo1 hi1).length := by
    rw [intRange_length]; exact hj
  have h1m : j < ((intRange lo1 hi1).map fun x =>
      (gridDict pts (x, lo2 + (i : ℤ))).getD
        { x := x, y := lo2 + (i : ℤ), status := "unknown",
          signal_strength := none }).length := by
    rw [List.length_map]; exact h1
  rw [List.getD_eq_getElem _ _ h1m, List.getElem_map,
    intRange_getElem lo1 hi1 j h1]

/-- C5: the grid structure invariant.  Empty input gives the empty grid
with all bounds 0 and cell_count 0; for non-empty input the bounds are
the bounding box of the supplied coordinates, the grid has
`(max_y - min_y + 1)` rows of `(max_x - min_x + 1)` cells each, rows
run over `y` ascending and cells within a row over `x` ascending (the
cell at row `i`, column `j` belongs to coordinates
`(min_x + j, min_y + i)`), the cell at a supplied key is the
last-submitted cell for that key (last-write-wins), and every
unsupplied position is the synthesized `unknown` cell with absent
signal strength. -/
theorem grid_endpoint_structure (points : List HeatPoint) (r : GridResult)
    (hr : r = grid_endpoint points) :
    (points = [] →
      r = { grid := [], min_x := 0, max_x := 0, min_y := 0, max_y := 0,
            cell_count := 0 }) ∧
    (points ≠ [] →
      (∀ q ∈ points, r.min_x ≤ q.grid_x ∧ q.grid_x ≤ r.max_x ∧
        r.min_y ≤ q.grid_y ∧ q.grid_y ≤ r.max_y) ∧
      (∃ q ∈ points, q.grid_x = r.min_x) ∧
      (∃ q ∈ points, q.grid_x = r.max_x) ∧
      (∃ q ∈ points, q.grid_y = r.min_y) ∧
      (∃ q ∈ points, q.grid_y = r.max_y) ∧
      r.cell_count = points.length ∧
      r.grid.length = (r.max_y - r.min_y + 1).toNat ∧
      (∀ row ∈ r.grid, row.length = (r.max_x - r.min_x + 1).toNat) ∧
      (∀ i j : ℕ, i < (r.max_y - r.min_y + 1).toNat →
        j < (r.max_x - r.min_x + 1).toNat →
        ((r.grid.getD i []).getD j
            { x := 0, y := 0, status := "unknown", signal_strength := none })
          = ((lastSubmitted points (r.min_x + j, r.min_y + i)).map
              HeatPoint.toCell).getD
              { x := r.min_x + j, y := r.min_y + i, status := "unknown",
                signal_strength := none })) := by
  subst hr
  constructor
  · intro h
    rw [h]
    rfl
  · intro hne
    rcases points with _ | ⟨p, ps⟩
    · exact absurd rfl hne
    have hmx : (grid_endpoint (p :: ps)).min_x
        = (ps.map HeatPoint.grid_x).foldl min p.grid_x := rfl
    have hMx : (grid_endpoint (p :: ps)).max_x
        = (ps.map HeatPoint.grid_x).foldl max p.grid_x := rfl
    have hmy : (grid_endpoint (p :: ps)).min_y
        = (ps.map HeatPoint.grid_y).foldl min p.grid_y := rfl
    have hMy : (grid_endpoint (p :: ps)).max_y
        = (ps.map HeatPoint.grid_y).foldl max p.grid_y := rfl
    have hgrid : (grid_endpoint (p :: ps)).grid
        = (intRange ((ps.map HeatPoint.grid_y).foldl min p.grid_y)
              ((ps.map HeatPoint.grid_y).foldl max p.grid_y)).map fun y =>
            (intRange ((ps.map HeatPoint.grid_x).foldl min p.grid_x)
                ((ps.map HeatPoint.grid_x).foldl max p.grid_x)).map fun x =>
              (gridDict (p :: ps) (x, y)).getD
                { x := x, y := y, status := "unknown",
                  signal_strength := none } := rfl
    refine ⟨?_, ?_, ?_, ?_, ?_, rfl, ?_, ?_, ?_⟩
    · intro q hq
      have hx : q.grid_x ∈ p.grid_x :: ps.map HeatPoint.grid_x := by
        have h := List.mem_map_of_mem HeatPoint.grid_x hq
        rwa [List.map_cons] at h
      have hy : q.grid_y ∈ p.grid_y :: ps.map HeatPoint.grid_y := by
        have h := List.mem_map_of_mem HeatPoint.grid_y hq
        rwa [List.map_cons] at h
      rw [hmx, hMx, hmy, hMy]
      exact ⟨foldl_min_le_of_mem hx, le_foldl_max_of_mem hx,
        foldl_min_le_of_mem hy, le_foldl_max_of_mem hy⟩
    · rw [hmx]
      have h := foldl_min_mem p.grid_x (ps.map HeatPoint.grid_x)
      rw [← List.map_cons] at h
      exact List.mem_map.mp h
    · rw [hMx]
      have h := foldl_max_mem p.grid_x (ps.map HeatPoint.grid_x)
      rw [← List.map_cons] at h
      exact List.mem_map.mp h
    · rw [hmy]
      have h := foldl_min_mem p.grid_y (ps.map HeatPoint.grid_y)
      rw [← List.map_cons] at h
      exact List.mem_map.mp h
    · rw [hMy]
      have h := foldl_max_mem p.grid_y (ps.map HeatPoint.grid_y)
      rw [← List.map_cons] at h
      exact List.mem_map.mp h
    · rw [hgrid, List.length_map, intRange_length, hmy, hMy]
    · intro row hrow
      rw [hgrid] at hrow
      rcases List.mem_map.mp hrow with ⟨y, _, hy2⟩
      rw [← hy2, List.length_map, intRange_length, hmx, hMx]
    · intro i j hi hj
      rw [hmy, hMy] at hi
      rw [hmx, hMx] at hj
      rw [hgrid, hmx, hmy, grid_cells_getD _ _ _ _ _ _ i j hi hj,
        gridDict_eq_lastSubmitted]

/-- Witness for C5 on cells at `(0,0)` and `(2,2)`: a `3 × 3` grid. -/
theorem grid_endpoint_structure_witness :
    ([(⟨0, 0, "clear", -50⟩ : HeatPoint), ⟨2, 2, "obstacle", -90⟩] ≠ []) ∧
    (grid_endpoint
        [(⟨0, 0, "clear", -50⟩ : HeatPoint), ⟨2, 2, "obstacle", -90⟩]).grid.length
      = ((grid_endpoint
            [(⟨0, 0, "clear", -50⟩ : HeatPoint), ⟨2, 2, "obstacle", -90⟩]).max_y
          - (grid_endpoint
              [(⟨0, 0, "clear", -50⟩ : HeatPoint), ⟨2, 2, "obstacle", -90⟩]).min_y
          + 1).toNat :=
  ⟨by decide,
    ((grid_endpoint_structure
        [(⟨0, 0, "clear", -50⟩ : HeatPoint), ⟨2, 2, "obstacle", -90⟩]
        (grid_endpoint
          [(⟨0, 0, "clear", -50⟩ : HeatPoint), ⟨2, 2, "obstacle", -90⟩]) rfl).2
      (by decide)).2.2.2.2.2.2.1⟩

/-- Branch lemma: non-negative `rssi` short-circuits to `0.0`. -/
theorem calculate_distance_of_nonneg (rssi tx_power env : ℝ)
    (h : rssi ≥ 0) :
    calculate_distance_from_rssi rssi tx_power env = Except.ok 0 := by
  unfold calculate_distance_from_rssi
  rw [if_pos h]

/-- Branch lemma: `math.pow` overflow is caught and mapped to `999.0`. -/
theorem calculate_distance_of_overflow (rssi tx_power env : ℝ)
    (h1 : ¬ rssi ≥ 0) (h2 : ¬ env = 0)
    (h3 : floatMax ≤ (10 : ℝ) ^ ((tx_power - rssi) / (10 * env))) :
    calculate_distance_from_rssi rssi tx_power env = Except.ok 999 := by
  unfold calculate_distance_from_rssi
  rw [if_neg h1, if_neg h2, if_pos h3]

/-- Branch lemma: the normal path returns the rounded power. -/
theorem calculate_distance_of_normal (rssi tx_power env : ℝ)
    (h1 : ¬ rssi ≥ 0) (h2 : ¬ env = 0)
    (h3 : (10 : ℝ) ^ ((tx_power - rssi) / (10 * env)) < floatMax) :
    calculate_distance_from_rssi rssi tx_power env
      = Except.ok (round2 ((10 : ℝ) ^ ((tx_power - rssi) / (10 * env)))) := by
  unfold calculate_distance_from_rssi
  rw [if_neg h1, if_neg h2, if_neg (not_le.mpr h3)]

/-- Rounding to two decimals is monotone. -/
theorem round2_mono {a b : ℝ} (h : a ≤ b) : round2 a ≤ round2 b := by
  rw [round2, round2, div_le_div_iff_of_pos_right (by norm_num : (0:ℝ) < 100),
    Int.cast_le, round_eq, round_eq]
  exact Int.floor_le_floor (by linarith)

/-- Rounding to two decimals preserves non-negativity. -/
theorem round2_nonneg {a : ℝ} (h : 0 ≤ a) : 0 ≤ round2 a := by
  have h0 : (0:ℤ) ≤ round (100 * a) := by
    rw [round_eq]
    exact Int.floor_nonneg.mpr (by linarith)
  have h1 : (0:ℝ) ≤ ((round (100 * a) : ℤ) : ℝ) := by exact_mod_cast h0
  rw [round2]
  exact div_nonneg h1 (by norm_num)

/-- Any value at least `1000` still exceeds `999` after rounding. -/
theorem lt_round2_of_le {a : ℝ} (h : 1000 ≤ a) : 999 < round2 a := by
  have hr := abs_le.mp (abs_sub_round (100 * a))
  rw [round2, lt_div_iff₀ (by norm_num : (0:ℝ) < 100)]
  linarith [hr.2]

/-- A power of ten with exponent at most `298` stays below the double
overflow threshold (`10^298 < 2^1024`). -/
theorem rpow_lt_floatMax {r : ℝ} (h : r ≤ 298) :
    (10 : ℝ) ^ r < floatMax := by
  have h1 : (10:ℝ) ^ r ≤ (10:ℝ) ^ (((298:ℕ) : ℝ)) :=
    (Real.rpow_le_rpow_left_iff (by norm_num)).mpr (by exact_mod_cast h)
  have h2 : (10:ℝ) ^ (((298:ℕ) : ℝ)) = (10:ℝ) ^ (298:ℕ) :=
    Real.rpow_natCast 10 298
  have h3 : (10:ℝ) ^ (298:ℕ) < (2:ℝ) ^ (1024:ℕ) := by
    have hn : (10:ℕ) ^ 298 < 2 ^ 1024 := by norm_num
    exact_mod_cast hn
  rw [floatMax]
  calc (10:ℝ) ^ r ≤ (10:ℝ) ^ (((298:ℕ) : ℝ)) := h1
    _ = (10:ℝ) ^ (298:ℕ) := h2
    _ < (2:ℝ) ^ (1024:ℕ) := h3

/-- A power of ten with exponent at least `309` exceeds the double
overflow threshold (`2^1024 < 10^309`). -/
theorem floatMax_le_rpow {r : ℝ} (h : 309 ≤ r) :
    floatMax ≤ (10 : ℝ) ^ r := by
  have h1 : (10:ℝ) ^ (((309:ℕ) : ℝ)) ≤ (10:ℝ) ^ r :=
    (Real.rpow_le_rpow_left_iff (by norm_num)).mpr (by exact_mod_cast h)
  have h2 : (10:ℝ) ^ (((309:ℕ) : ℝ)) = (10:ℝ) ^ (309:ℕ) :=
    Real.rpow_natCast 10 309
  have h3 : (2:ℝ) ^ (1024:ℕ) < (10:ℝ) ^ (309:ℕ) := by
    have hn : (2:ℕ) ^ 1024 < 10 ^ 309 := by norm_num
    exact_mod_cast hn
  rw [floatMax]
  calc (2:ℝ) ^ (1024:ℕ) ≤ (10:ℝ) ^ (309:ℕ) := le_of_lt h3
    _ = (10:ℝ) ^ (((309:ℕ) : ℝ)) := h2.symm
    _ ≤ (10:ℝ) ^ r := h1

/-- C1 counterexample: at `rssi = -1`, `tx_power = -59`,
`environment_factor = 0` the division by zero is NOT caught (the
`except` clause lists only `ValueError` and `OverflowError`), so the
call raises `ZeroDivisionError` instead of returning the `999.0`
sentinel. -/
theorem calculate_distance_env_zero_counterexample :
    calculate_distance_from_rssi (-1) (-59) 0
        = Except.error PyError.zeroDivisionError ∧
    calculate_distance_from_rssi (-1) (-59) 0 ≠ Except.ok 999 := by
  have h : calculate_distance_from_rssi (-1) (-59) 0
      = Except.error PyError.zeroDivisionError := by
    unfold calculate_distance_from_rssi
    rw [if_neg (by norm_num), if_pos rfl]
  refine ⟨h, ?_⟩
  rw [h]
  intro hc
  exact Except.noConfusion hc

/-- C1 (amended): for every `rssi < 0` and any `tx_power`, calling with
`environment_factor = 0` propagates a `ZeroDivisionError` to the
caller; the `999.0` sentinel is produced only for the caught
`ValueError`/`OverflowError` cases. -/
theorem calculate_distance_env_zero_raises (rssi tx_power : ℝ)
    (h : rssi < 0) :
    calculate_distance_from_rssi rssi tx_power 0
      = Except.error PyError.zeroDivisionError := by
  unfold calculate_distance_from_rssi
  rw [if_neg (not_le.mpr h), if_pos rfl]

/-- Witness for the amended C1 at `rssi = -1`, `tx_power = -59`. -/
theorem calculate_distance_env_zero_raises_witness :
    ((-1 : ℝ) < 0) ∧
    calculate_distance_from_rssi (-1) (-59) 0
      = Except.error PyError.zeroDivisionError :=
  ⟨by norm_num, calculate_distance_env_zero_raises (-1) (-59) (by norm_num)⟩

/-- C3: the distance estimator matches the reference definition:
`rssi ≥ 0` returns `0.0` regardless of the other arguments; for
`rssi < 0`, positive `environment_factor` and a non-overflowing power
it returns `10^((tx_power - rssi) / (10 * environment_factor))` rounded
to 2 decimals; and the zero-attenuation reference point
`estimate_distance(-59, -59, 2.0) = 1.0` holds. -/
theorem calculate_distance_matches_reference (rssi tx_power env : ℝ) :
    (rssi ≥ 0 → calculate_distance_from_rssi rssi tx_power env
      = Except.ok 0) ∧
    (rssi < 0 → 0 < env →
      (10 : ℝ) ^ ((tx_power - rssi) / (10 * env)) < floatMax →
      calculate_distance_from_rssi rssi tx_power env
        = Except.ok (round2 ((10 : ℝ) ^ ((tx_power - rssi) / (10 * env))))) ∧
    calculate_distance_from_rssi (-59) (-59) 2 = Except.ok 1 := by
  refine ⟨fun h => calculate_distance_of_nonneg _ _ _ h,
    fun h1 h2 h3 =>
      calculate_distance_of_normal _ _ _ (not_le.mpr h1) (ne_of_gt h2) h3,
    ?_⟩
  rw [calculate_distance_of_normal (-59) (-59) 2 (by norm_num) (by norm_num)
    (rpow_lt_floatMax (by norm_num))]
  have hr : ((-59:ℝ) - (-59)) / (10 * 2) = 0 := by norm_num
  rw [hr, Real.rpow_zero]
  have h1 : round2 (1:ℝ) = 1 := by
    rw [round2]
    norm_num [round_eq]
  rw [h1]

/-- Witness for C3 at `rssi = 5`. -/
theorem calculate_distance_matches_reference_witness :
    ((5:ℝ) ≥ 0) ∧ calculate_distance_from_rssi 5 (-59) 2 = Except.ok 0 :=
  ⟨by norm_num,
    (calculate_distance_matches_reference 5 (-59) 2).1 (by norm_num)⟩

/-- C2 counterexample: with the default calibration
(`tx_power = -59`, `environment_factor = 2`), `rssi = -7000` overflows
and returns the `999.0` sentinel while the larger `rssi = -6000`
returns `10^297.05` rounded, which is far above `999`: the function is
not monotonically non-increasing across the overflow boundary. -/
theorem calculate_distance_monotonicity_counterexample :
    calculate_distance_from_rssi (-7000) (-59) 2 = Except.ok 999 ∧
    calculate_distance_from_rssi (-6000) (-59) 2
      = Except.ok (round2 ((10 : ℝ) ^ (((-59 : ℝ) - (-6000)) / (10 * 2)))) ∧
    999 < round2 ((10 : ℝ) ^ (((-59 : ℝ) - (-6000)) / (10 * 2))) := by
  have hb : (1000 : ℝ) ≤ (10 : ℝ) ^ (((-59 : ℝ) - (-6000)) / (10 * 2)) := by
    rw [show ((-59 : ℝ) - (-6000)) / (10 * 2) = 5941 / 20 by norm_num]
    have h1 : (10:ℝ) ^ (((3:ℕ) : ℝ)) ≤ (10:ℝ) ^ ((5941:ℝ) / 20) :=
      (Real.rpow_le_rpow_left_iff (by norm_num)).mpr (by norm_num)
    rw [Real.rpow_natCast] at h1
    norm_num at h1
    exact h1
  refine ⟨?_, ?_, lt_round2_of_le hb⟩
  · exact calculate_distance_of_overflow _ _ _ (by norm_num) (by norm_num)
      (floatMax_le_rpow (by norm_num))
  · exact calculate_distance_of_normal _ _ _ (by norm_num) (by norm_num)
      (rpow_lt_floatMax (by norm_num))

/-- C2 (amended): with `environment_factor > 0`, the estimator is
monotonically non-increasing in `rssi` on all inputs whose power does
not overflow (overflow of the lower `rssi` rules out overflow of the
higher one); this includes the crossing into the `rssi ≥ 0` region,
where the result is `0.0`.  At the overflow boundary itself
monotonicity fails, as the counterexample shows. -/
theorem calculate_distance_antitone (rssi1 rssi2 tx_power env : ℝ)
    (h12 : rssi1 ≤ rssi2) (henv : 0 < env)
    (hov : rssi1 < 0 →
      (10 : ℝ) ^ ((tx_power - rssi1) / (10 * env)) < floatMax) :
    ∃ v1 v2, calculate_distance_from_rssi rssi1 tx_power env
        = Except.ok v1 ∧
      calculate_distance_from_rssi rssi2 tx_power env = Except.ok v2 ∧
      v2 ≤ v1 := by
  by_cases h1 : rssi1 ≥ 0
  · have h2 : rssi2 ≥ 0 := le_trans h1 h12
    exact ⟨0, 0, calculate_distance_of_nonneg _ _ _ h1,
      calculate_distance_of_nonneg _ _ _ h2, le_refl 0⟩
  · have h1' : rssi1 < 0 := not_le.mp h1
    have henvne : ¬ env = 0 := ne_of_gt henv
    have hb1 := hov h1'
    have hpos : (0:ℝ) < 10 * env := by linarith
    have hratio : (tx_power - rssi2) / (10 * env)
        ≤ (tx_power - rssi1) / (10 * env) :=
      (div_le_div_iff_of_pos_right hpos).mpr (by linarith)
    have hpow : (10:ℝ) ^ ((tx_power - rssi2) / (10 * env))
        ≤ (10:ℝ) ^ ((tx_power - rssi1) / (10 * env)) :=
      (Real.rpow_le_rpow_left_iff (by norm_num)).mpr hratio
    by_cases h2 : rssi2 ≥ 0
    · refine ⟨round2 ((10:ℝ) ^ ((tx_power - rssi1) / (10 * env))), 0,
        calculate_distance_of_normal _ _ _ h1 henvne hb1,
        calculate_distance_of_nonneg _ _ _ h2, ?_⟩
      exact round2_nonneg (le_of_lt (Real.rpow_pos_of_pos (by norm_num) _))
    · have hb2 : (10:ℝ) ^ ((tx_power - rssi2) / (10 * env)) < floatMax :=
        lt_of_le_of_lt hpow hb1
      exact ⟨_, _, calculate_distance_of_normal _ _ _ h1 henvne hb1,
        calculate_distance_of_normal _ _ _ h2 henvne hb2, round2_mono hpow⟩

/-- Witness for the amended C2 at `rssi1 = -61 ≤ rssi2 = -60` with the
default calibration. -/
theorem calculate_distance_antitone_witness :
    ((-61 : ℝ) ≤ -60) ∧ ((0:ℝ) < 2) ∧
    (∃ v1 v2, calculate_distance_from_rssi (-61) (-59) 2
        = Except.ok v1 ∧
      calculate_distance_from_rssi (-60) (-59) 2 = Except.ok v2 ∧
      v2 ≤ v1) :=
  ⟨by norm_num, by norm_num,
    calculate_distance_antitone (-61) (-60) (-59) 2 (by norm_num)
      (by norm_num) (fun _ => rpow_lt_floatMax (by norm_num))⟩

/-- C7 counterexample: on the collinear anchors
`(0,0,1e200), (1,0,1), (2,0,1)` the claim demands `None` (degenerate
determinant `0 < 1e-4`), but the squaring `b1['distance'] ** 2`
overflows the double range before the guard runs, and the resulting
`OverflowError` is not in `except (KeyError, ZeroDivisionError,
ValueError)`: the exception reaches the caller instead. -/
theorem estimate_position_overflow_counterexample :
    estimate_position_from_beacons_py
        [(⟨0, 0, 10 ^ 200⟩ : Beacon), ⟨1, 0, 1⟩, ⟨2, 0, 1⟩]
      = Except.error PyError.overflowError ∧
    |trilatDenom ⟨0, 0, 10 ^ 200⟩ ⟨1, 0, 1⟩ ⟨2, 0, 1⟩| < 1/10000 ∧
    estimate_position_from_beacons_py
        [(⟨0, 0, 10 ^ 200⟩ : Beacon), ⟨1, 0, 1⟩, ⟨2, 0, 1⟩]
      ≠ Except.ok none := by
  have hov : trilatSqOverflow ⟨0, 0, 10 ^ 200⟩ ⟨1, 0, 1⟩ ⟨2, 0, 1⟩ := by
    unfold trilatSqOverflow qFloatMax
    left
    norm_num
  have he : estimate_position_from_beacons_py
      [(⟨0, 0, 10 ^ 200⟩ : Beacon), ⟨1, 0, 1⟩, ⟨2, 0, 1⟩]
      = Except.error PyError.overflowError := by
    simp only [estimate_position_from_beacons_py]
    rw [if_pos hov]
  refine ⟨he, ?_, ?_⟩
  · rw [trilatDenom]
    norm_num
  · rw [he]
    intro hc
    exact Except.noConfusion hc

/-- C7 (amended): fewer than 3 anchors returns `None`; with 3 or more
anchors, if none of the squarings computed for `C` and `F` leaves the
double range, the call returns normally and gives `None` exactly when
`|A*E - B*D| < 1e-4` (collinear or coincident anchors); if some
squaring does leave the double range, the uncaught `OverflowError`
propagates to the caller — even for collinear anchors, since `C` is
evaluated before the guard; anchors beyond the first three are
ignored. -/
theorem estimate_position_degenerate_cases_amended (bs : List Beacon)
    (b1 b2 b3 : Beacon) (rest : List Beacon) :
    (bs.length < 3 → estimate_position_from_beacons_py bs
      = Except.ok none) ∧
    (trilatSqOverflow b1 b2 b3 →
      estimate_position_from_beacons_py (b1 :: b2 :: b3 :: rest)
        = Except.error PyError.overflowError) ∧
    (¬ trilatSqOverflow b1 b2 b3 →
      (estimate_position_from_beacons_py (b1 :: b2 :: b3 :: rest)
          = Except.ok none ↔
        |trilatDenom b1 b2 b3| < 1/10000)) ∧
    estimate_position_from_beacons_py (b1 :: b2 :: b3 :: rest)
      = estimate_position_from_beacons_py [b1, b2, b3] := by
  refine ⟨?_, ?_, ?_, ?_⟩
  · intro h
    rcases bs with _ | ⟨a, _ | ⟨b, _ | ⟨c, t⟩⟩⟩
    · rfl
    · rfl
    · rfl
    · simp at h
      omega
  · intro h
    simp only [estimate_position_from_beacons_py]
    rw [if_pos h]
  · intro h
    simp only [estimate_position_from_beacons_py]
    rw [if_neg h, Except.ok.injEq]
    exact (estimate_position_degenerate_cases [] b1 b2 b3 rest).2.1
  · simp only [estimate_position_from_beacons_py]
    rw [(estimate_position_degenerate_cases [] b1 b2 b3 rest).2.2]

/-- Witness for the amended C7 at the in-range collinear anchors
`(0,0,1), (1,0,1), (2,0,1)`. -/
theorem estimate_position_degenerate_cases_amended_witness :
    (¬ trilatSqOverflow ⟨0, 0, 1⟩ ⟨1, 0, 1⟩ ⟨2, 0, 1⟩) ∧
    (estimate_position_from_beacons_py
        [(⟨0, 0, 1⟩ : Beacon), ⟨1, 0, 1⟩, ⟨2, 0, 1⟩] = Except.ok none ↔
      |trilatDenom ⟨0, 0, 1⟩ ⟨1, 0, 1⟩ ⟨2, 0, 1⟩| < 1/10000) := by
  have hno : ¬ trilatSqOverflow ⟨0, 0, 1⟩ ⟨1, 0, 1⟩ ⟨2, 0, 1⟩ := by
    unfold trilatSqOverflow qFloatMax
    norm_num
  exact ⟨hno,
    (estimate_position_degenerate_cases_amended [] ⟨0, 0, 1⟩ ⟨1, 0, 1⟩
      ⟨2, 0, 1⟩ []).2.2.1 hno⟩
